import Mathlib

/-!
Verification development for the youtube-analytics ingestion pipeline.

The definitions below are shallow embeddings of the JavaScript source:

* `YouTubeAPIClient.*` embeds the API client (`src/unnamed/part_008`):
  the quota / cache / network flow of `makeRequest`, the ISO-8601 duration
  decoder `parseDuration` and the Shorts classifier `isShort`.
* `YouTubeChannelService.*` embeds the pagination walker
  (`src/youtube-data-api/services/youtubeChannelService.js`).
* `YouTubeVideoService.*` embeds the video fetch-and-store entry point
  (`src/youtube-data-api/services/youtubeVideoService.js`).
* `JobQueue.*` embeds the job queue wiring
  (`src/youtube-data-api/services/jobQueue.js`).
* `YouTubeDataStorage.*` embeds the analytics recomputation
  (`src/unnamed/part_006`, class `YouTubeDataStorage`) and
  `src/youtube-data-api/utils/analytics.js`.

JavaScript numbers are modelled as `Nat` / `Rat` (arithmetic is exact),
JavaScript strings as `String`, thrown exceptions as `Except String`,
and the mutable module-level limiter / cache state as explicit state
records threaded through the functions.
-/

/-! ## String helpers: the JavaScript `String.prototype.includes` -/

/-- Whether `sub` is an initial segment of `l` (character lists). -/
def startsWith : List Char → List Char → Bool
  | [], _ => true
  | _ :: _, [] => false
  | c :: cs, d :: ds => c == d && startsWith cs ds

/-- Whether `sub` occurs contiguously in `l`; embeds the JavaScript
substring search used by `String.prototype.includes`. -/
def containsSeq (sub : List Char) : List Char → Bool
  | [] => sub.isEmpty
  | c :: t => startsWith sub (c :: t) || containsSeq sub t

/-- Embeds the JavaScript expression `s.includes(sub)`. -/
def jsIncludes (s sub : String) : Bool :=
  containsSeq sub.toList s.toList

/-- Embeds the JavaScript expression `s.toLowerCase().includes(sub)`
(character-list form of the lowercase mapping, so that it evaluates by
kernel reduction). -/
def jsLowerIncludes (s sub : String) : Bool :=
  containsSeq sub.toList (s.toList.map Char.toLower)

namespace YouTubeAPIClient

/-! ## Duration decoding (`part_008` lines 244-257)

`parseDuration` applies the JavaScript regular expression
`/PT(?:(\d+)H)?(?:(\d+)M)?(?:(\d+)S)?/` to the input and sums the captured
components.  The regular expression is unanchored and every group is
optional, so it matches at the leftmost occurrence of the literal `PT`
(and the whole call returns 0 when `PT` does not occur: `matches` is
`null`).  After `PT`, each group `(\d+)X` consumes a maximal digit run
followed by the literal `X`, and is skipped (consuming nothing) when the
run is empty or not followed by `X`; backtracking inside a digit run can
never produce the letter, so the maximal-run reading is exact. -/

/-- Leftmost occurrence of the literal `PT`; returns the characters that
follow it.  Embeds the unanchored regex search. -/
def findPT : List Char → Option (List Char)
  | [] => none
  | c :: t => if startsWith ['P', 'T'] (c :: t) then some t.tail else findPT t

/-- Embeds `parseInt` on a non-empty digit string. -/
def digitsToNat (ds : List Char) : ℕ :=
  ds.foldl (fun n c => n * 10 + (c.toNat - '0'.toNat)) 0

/-- Embeds one optional regex group `(?:(\d+)X)?` where `X` is `letter`:
a maximal digit run followed by `letter` yields its value and consumes
both; otherwise the group matches empty and consumes nothing
(JavaScript `parseInt(undefined) || 0` gives the 0 default). -/
def grabComponent (letter : Char) (cs : List Char) : ℕ × List Char :=
  let ds := cs.takeWhile (fun c => c.isDigit)
  let rest := cs.dropWhile (fun c => c.isDigit)
  match rest with
  | c :: rest2 => if c == letter && !ds.isEmpty then (digitsToNat ds, rest2) else (0, cs)
  | [] => (0, cs)

/-- Embeds `YouTubeAPIClient.parseDuration` (`part_008` lines 245-257):
hours, minutes and seconds decoded from the compact token, combined as
`hours * 3600 + minutes * 60 + seconds`. -/
def parseDuration (duration : String) : ℕ :=
  match findPT duration.toList with
  | none => 0
  | some rest =>
    let hm := grabComponent 'H' rest
    let mm := grabComponent 'M' hm.2
    let sm := grabComponent 'S' mm.2
    hm.1 * 3600 + mm.1 * 60 + sm.1

/-! ## Shorts classification (`part_008` lines 259-282) -/

/-- Embeds `YouTubeAPIClient.isShort(categoryId, duration, tags)`
(`part_008` lines 260-282).  A JavaScript `undefined` tags field behaves
exactly like the empty list (the `tags &&` guard makes the tag check
false), so tags are modelled as a plain list.  Note the final fallback
`return duration <= 61` in the source. -/
def isShort (categoryId : String) (duration : ℕ) (tags : List String) : Bool :=
  if duration ≤ 60 then
    true
  else if tags.any (fun tag =>
      jsLowerIncludes tag "short" || jsLowerIncludes tag "shorts") then
    true
  else if categoryId == "23" then
    true
  else
    duration ≤ 61

end YouTubeAPIClient

/-! ## Error taxonomy (spec section 7) -/

/-- Modelled from the spec: the typed error taxonomy `QuotaExceeded`,
`RateLimited`, `NotFound`, `Upstream4xx`, `Upstream5xx`, `NetworkError`,
`ValidationError` of section 7.  The repository source defines no such
types; this inductive exists to state the refinement claims against it. -/
inductive ErrorTaxonomy where
  | quotaExceeded
  | rateLimited
  | notFound
  | upstream4xx
  | upstream5xx
  | networkError
  | validationError
  deriving DecidableEq, Repr

namespace YouTubeAPIClient

/-! ## Rate limiting and the request flow (`part_008` lines 5-133) -/

/-- One counter window of the `rate-limiter-flexible` `RateLimiterMemory`
dependency.  Modelled from the spec (section 4.1): `tryConsume(cost)`
either succeeds, adding `cost` to the consumed total, or fails leaving
the counter unchanged; the library itself is an external dependency, not
repository code. -/
structure RateLimiterMemory where
  points : ℕ
  consumed : ℕ
  deriving DecidableEq, Repr

/-- Consumption attempt on one counter (spec section 4.1 contract). -/
def RateLimiterMemory.consume (rl : RateLimiterMemory) (cost : ℕ) :
    Option RateLimiterMemory :=
  if rl.consumed + cost ≤ rl.points then
    some { rl with consumed := rl.consumed + cost }
  else
    none

/-- The daily limiter (`part_008` lines 10-13): 10000 points per 24 h. -/
def rateLimiter : RateLimiterMemory := { points := 10000, consumed := 0 }

/-- The per-minute limiter (`part_008` lines 16-19): 100 points per 60 s. -/
def minuteRateLimiter : RateLimiterMemory := { points := 100, consumed := 0 }

/-- The mutable module-level state the client touches: both limiter
windows, the `NodeCache` contents (key, cached data, ttl; an entry being
present models it being unexpired), and the `this.usage` counters. -/
structure ClientState where
  daily : RateLimiterMemory
  minute : RateLimiterMemory
  cache : List (String × ℕ × ℕ)
  totalRequests : ℕ
  requestsToday : ℕ
  deriving DecidableEq, Repr

/-- Fresh process state: both limiters full, cache empty. -/
def initialState : ClientState :=
  { daily := rateLimiter, minute := minuteRateLimiter, cache := [],
    totalRequests := 0, requestsToday := 0 }

/-- Embeds `apiCache.get(cacheKey)`: first entry with the key, if any. -/
def cacheGet : List (String × ℕ × ℕ) → String → Option ℕ
  | [], _ => none
  | (k, v, _) :: t, key => if k == key then some v else cacheGet t key

/-- Embeds the TTL selection of `part_008` lines 88-93. -/
def cacheTTL (endpoint : String) : ℕ :=
  if jsIncludes endpoint "/search" || jsIncludes endpoint "/videos" then 300
  else if jsIncludes endpoint "/channels" then 1800
  else 600

deriving instance DecidableEq for Except

/-- What the upstream network call would produce, were it issued. -/
inductive UpstreamResult where
  | success (data : ℕ)
  | httpError (status : ℕ) (reason : String) (message : String)
  | transportError (message : String)
  deriving DecidableEq, Repr

/-- Result of one `makeRequest` call: the returned data or the message of
the thrown `Error`, the module state afterwards, and how many network
calls were issued (0 or 1). -/
structure RequestOutcome where
  result : Except String ℕ
  state : ClientState
  networkCalls : ℕ
  deriving DecidableEq, Repr

/-- The retry half of the rate-limit block (`part_008` lines 56-61): after
the 5 second delay, consume the daily limiter again, then the minute
limiter; a failure here raises the rate-limit error.  Consumptions that
succeeded before the failing one persist, because the two limiters are
independent mutable objects. -/
def quotaRetry (s : ClientState) (cost : ℕ) : Bool × ClientState :=
  match s.daily.consume cost with
  | some d2 =>
    match s.minute.consume 1 with
    | some m2 => (true, { s with daily := d2, minute := m2 })
    | none => (false, { s with daily := d2 })
  | none => (false, s)

/-- The full rate-limit block (`part_008` lines 46-62): consume the daily
limiter, then the minute limiter; on either failure wait 5 s (timing not
modelled) and run the retry half once. -/
def quotaPhase (s : ClientState) (cost : ℕ) : Bool × ClientState :=
  match s.daily.consume cost with
  | some d1 =>
    match s.minute.consume 1 with
    | some m1 => (true, { s with daily := d1, minute := m1 })
    | none => quotaRetry { s with daily := d1 } cost
  | none => quotaRetry s cost

/-- Embeds `YouTubeAPIClient.makeRequest(endpoint, params, cost)`
(`part_008` lines 41-127), with `paramsJson` standing for
`JSON.stringify(params)`:

1. rate-limit block; on final failure the thrown rate-limit `Error`
   reaches the outer catch, which (having neither `response` nor
   `request` fields) rethrows it as `Request error: ...`;
2. `this.usage` counters are incremented (the day-rollover reset of
   lines 68-73 needs a clock and is not modelled);
3. cache lookup on `` `${endpoint}_${JSON.stringify(params)}` ``,
   returning the cached data immediately on a hit;
4. otherwise the network call: a 2xx response is cached with the
   endpoint-class TTL and returned; a non-2xx response is rethrown as
   `YouTube API Error: <status> - <message>` (the status and the reason
   code of lines 105-115 drive only `console.error` logging); a
   transport failure is rethrown as `Network error: <message>`. -/
def makeRequest (net : UpstreamResult) (endpoint paramsJson : String)
    (cost : ℕ) (s : ClientState) : RequestOutcome :=
  match quotaPhase s cost with
  | (false, s1) =>
    { result := .error "Request error: Rate limit exceeded. Please try again later.",
      state := s1, networkCalls := 0 }
  | (true, s1) =>
    let s2 := { s1 with totalRequests := s1.totalRequests + 1,
                        requestsToday := s1.requestsToday + 1 }
    let cacheKey := endpoint ++ "_" ++ paramsJson
    match cacheGet s2.cache cacheKey with
    | some v => { result := .ok v, state := s2, networkCalls := 0 }
    | none =>
      match net with
      | .success data =>
        { result := .ok data,
          state := { s2 with cache := (cacheKey, data, cacheTTL endpoint) :: s2.cache },
          networkCalls := 1 }
      | .httpError status _reason message =>
        { result := .error ("YouTube API Error: " ++ toString status ++ " - " ++ message),
          state := s2, networkCalls := 1 }
      | .transportError message =>
        { result := .error ("Network error: " ++ message),
          state := s2, networkCalls := 1 }

/-- Modelled from the spec (section 4.3 step 4 and section 7): the typed
classification every upstream failure is claimed to be translated into.
A 403 is split on the upstream reason code `quotaExceeded`; 404 is
`NotFound`; 5xx is `Upstream5xx`; any other non-2xx is `Upstream4xx`;
a transport failure is `NetworkError`. -/
def specClassify : UpstreamResult → Option ErrorTaxonomy
  | .success _ => none
  | .httpError status reason _ =>
    some (if status = 403 then
            (if reason = "quotaExceeded" then .quotaExceeded else .rateLimited)
          else if status = 404 then .notFound
          else if 500 ≤ status then .upstream5xx
          else .upstream4xx)
  | .transportError _ => some .networkError

end YouTubeAPIClient

namespace YouTubeChannelService

/-! ## Pagination walker
(`youtubeChannelService.js` lines 70-95, `fetchChannelVideosPaginated`) -/

/-- One page as returned by `client.getChannelVideos`: the assembled
video records (abstracted to identifiers) and the continuation token. -/
structure Page where
  videos : List ℕ
  nextPageToken : Option String
  deriving DecidableEq, Repr

/-- Embeds the `do ... while (pageToken && pagesFetched < maxPages)` loop
of lines 76-86: `getPage` abstracts the per-page upstream listing (page
index in fetch order), `allVideos` and `pagesFetched` are the loop
variables.  Returns the accumulated videos and the number of pages
fetched. -/
def fetchLoop (getPage : ℕ → Page) (maxPages : ℕ)
    (allVideos : List ℕ) (pagesFetched : ℕ) : List ℕ × ℕ :=
  if h : (getPage pagesFetched).nextPageToken.isSome = true ∧
      pagesFetched + 1 < maxPages then
    fetchLoop getPage maxPages (allVideos ++ (getPage pagesFetched).videos)
      (pagesFetched + 1)
  else
    (allVideos ++ (getPage pagesFetched).videos, pagesFetched + 1)
termination_by maxPages - pagesFetched
decreasing_by
  obtain ⟨-, h2⟩ := h
  omega

/-- Embeds `YouTubeChannelService.fetchChannelVideosPaginated(channelId,
maxPages)`: the loop starting from `allVideos = []`, `pageToken = null`,
`pagesFetched = 0`. -/
def fetchChannelVideosPaginated (getPage : ℕ → Page) (maxPages : ℕ) :
    List ℕ × ℕ :=
  fetchLoop getPage maxPages [] 0

/-- Concatenation, in page order, of the videos of `count` pages starting
at page `start`. -/
def pagesVideos (getPage : ℕ → Page) (start : ℕ) : ℕ → List ℕ
  | 0 => []
  | count + 1 => (getPage start).videos ++ pagesVideos getPage (start + 1) count

end YouTubeChannelService

namespace YouTubeVideoService

/-! ## Video fetch-and-store (`youtubeVideoService.js` lines 10-29) -/

/-- The methods the `YouTubeAPIClient` class defines (`part_008` lines
21-283). -/
def youTubeAPIClientMethods : List String :=
  ["constructor", "makeRequest", "delay", "getChannelInfo",
   "getChannelVideos", "getVideoDetails", "parseDuration", "isShort"]

/-- The methods the `YouTubeChannelService` class defines
(`youtubeChannelService.js`). -/
def youTubeChannelServiceMethods : List String :=
  ["constructor", "fetchAndStoreChannel", "storeChannel",
   "fetchChannelVideosPaginated", "getChannelAnalytics",
   "updateChannelAnalytics"]

/-- Result of `fetchAndStoreChannelVideos`: the thrown error or the
returned videos, and the videos actually stored by `storeVideo`. -/
structure FetchStoreResult where
  result : Except String (List ℕ)
  storedVideos : List ℕ
  deriving DecidableEq, Repr

/-- Embeds `YouTubeVideoService.fetchAndStoreChannelVideos(channelId,
maxPages)` (lines 10-29).  Its constructor sets `this.client = new
YouTubeAPIClient(apiKey)`, and line 15 invokes
`this.client.fetchChannelVideosPaginated(channelId, maxPages)`: a
property access on the client resolves against the methods of
`YouTubeAPIClient`, and calling an absent property raises a `TypeError`
which the surrounding catch rethrows, before any `storeVideo` runs.  The
then-branch (reachable only if the client had such a method) would store
every fetched video. -/
def fetchAndStoreChannelVideos (getPage : ℕ → YouTubeChannelService.Page)
    (_channelId : String) (maxPages : ℕ) : FetchStoreResult :=
  if "fetchChannelVideosPaginated" ∈ youTubeAPIClientMethods then
    let allVideos :=
      (YouTubeChannelService.fetchChannelVideosPaginated getPage maxPages).1
    { result := .ok allVideos, storedVideos := allVideos }
  else
    { result := .error
        "TypeError: this.client.fetchChannelVideosPaginated is not a function",
      storedVideos := [] }

end YouTubeVideoService

namespace JobQueue

/-! ## Job queue (`jobQueue.js`) -/

/-- The `job_queue.status` enumeration. -/
inductive JobStatus where
  | pending
  | started
  | completed
  | failed
  deriving DecidableEq, Repr

/-- The database row of a job (`job_queue` table columns the processors
touch). -/
structure JobRow where
  status : JobStatus
  progress : ℕ
  errorMessage : Option String
  deriving DecidableEq, Repr

/-- Embeds `updateJobStatus(jobId, status, errorMessage)` (`jobQueue.js`
lines 185-207): an unconditional `UPDATE job_queue SET status = ...`
keyed only on the job id — the current status is never consulted, so any
requested status is applied, including from a terminal state.  Only the
`failed` branch writes the error message. -/
def updateJobStatus (row : JobRow) (status : JobStatus)
    (errorMessage : Option String) : JobRow :=
  if status = .failed then
    { row with status := status, errorMessage := errorMessage }
  else
    { row with status := status }

/-- Embeds `updateJobProgress(jobId, progress)` (lines 210-220):
an unconditional `UPDATE job_queue SET progress = ...`. -/
def updateJobProgress (row : JobRow) (progress : ℕ) : JobRow :=
  { row with progress := progress }

/-- The Bull `add` options of a job. -/
structure JobOptions where
  priority : ℕ
  attempts : ℕ
  backoffType : String
  backoffDelay : ℕ
  deriving DecidableEq, Repr

/-- The options `addChannelFetchJob` passes to `channelFetchQueue.add`
(lines 126-136): `attempts: 3`, exponential backoff with delay 2000,
for every job regardless of anything about the work or its failures. -/
def channelFetchJobOptions (priority : ℕ) : JobOptions :=
  { priority := priority, attempts := 3,
    backoffType := "exponential", backoffDelay := 2000 }

/-- The options `addVideoFetchJob` passes to `videoFetchQueue.add`
(lines 148-158): identical to the channel fetch options. -/
def videoFetchJobOptions (priority : ℕ) : JobOptions :=
  { priority := priority, attempts := 3,
    backoffType := "exponential", backoffDelay := 2000 }

/-- Modelled from the spec: Bull (the external queue library) retries a
failed execution while attempts remain — the spec words the mechanism as
"retries failed job execution up to 3 attempts with exponential backoff
(starting at 2 seconds)".  The repository processors (lines 79-86 and
114-121) rethrow every caught error to Bull uniformly, so the retry
decision cannot depend on which taxonomy failure occurred; the error
argument is listed to make that independence statable. -/
def bullShouldRetry (opts : JobOptions) (attemptsMade : ℕ)
    (_e : ErrorTaxonomy) : Bool :=
  attemptsMade < opts.attempts

/-- Modelled from the spec: the exponential backoff delay before the next
attempt, starting at the configured delay (Bull doubles per attempt). -/
def bullBackoffDelay (opts : JobOptions) (attemptsMade : ℕ) : ℕ :=
  opts.backoffDelay * 2 ^ (attemptsMade - 1)

/-- One job executed under the retry policy, starting at attempt number
`attempt`: `exec` gives each attempt its outcome.  Returns the number of
the last attempt executed and its outcome. -/
def runJobFrom (opts : JobOptions) (exec : ℕ → Except ErrorTaxonomy Unit)
    (attempt : ℕ) : ℕ × Except ErrorTaxonomy Unit :=
  match exec attempt with
  | .ok u => (attempt, .ok u)
  | .error e =>
    if h : bullShouldRetry opts attempt e = true then
      runJobFrom opts exec (attempt + 1)
    else
      (attempt, .error e)
termination_by opts.attempts - attempt
decreasing_by
  simp [bullShouldRetry] at h
  omega

/-- One job executed under the retry policy, from its first attempt. -/
def runJob (opts : JobOptions) (exec : ℕ → Except ErrorTaxonomy Unit) :
    ℕ × Except ErrorTaxonomy Unit :=
  runJobFrom opts exec 1

/-! ## Job lifecycle traces (`jobQueue.js` lines 51-87 with Bull retries)

The channel fetch processor issues, in order: `updateJobStatus(started)`;
`fetchAndStoreChannel`; `updateJobProgress(50)`;
`fetchChannelVideosPaginated`; `updateJobProgress(100)`;
`updateJobStatus(completed)`; and on any thrown error
`updateJobStatus(failed, message)`.  Bull re-executes the processor on a
failed attempt while attempts remain (`attempts: 3`), so the database
row receives the concatenation of the per-attempt update sequences after
the initial `pending` insert of `storeJobInDatabase` (line 174). -/

/-- Where one execution attempt of the channel fetch processor fails, if
it fails. -/
inductive ChannelAttemptOutcome where
  | failAtChannel (msg : String)
  | failAtVideos (msg : String)
  | success
  deriving DecidableEq, Repr

/-- The sequence of `status` values one attempt writes to the row. -/
def attemptStatusUpdates : ChannelAttemptOutcome → List JobStatus
  | .failAtChannel _ => [.started, .failed]
  | .failAtVideos _ => [.started, .failed]
  | .success => [.started, .completed]

/-- The sequence of `progress` values one attempt writes to the row. -/
def attemptProgressUpdates : ChannelAttemptOutcome → List ℕ
  | .failAtChannel _ => []
  | .failAtVideos _ => [50]
  | .success => [50, 100]

/-- Whether the attempt completed without a thrown error. -/
def attemptSucceeds : ChannelAttemptOutcome → Bool
  | .success => true
  | _ => false

/-- Status values written from attempt `k` on, with `fuel` attempts
remaining (Bull executes at most `attempts = 3` in total). -/
def statusTraceFrom (outcomes : ℕ → ChannelAttemptOutcome) :
    ℕ → ℕ → List JobStatus
  | 0, _ => []
  | fuel + 1, k =>
    attemptStatusUpdates (outcomes k) ++
      (if attemptSucceeds (outcomes k) then []
       else statusTraceFrom outcomes fuel (k + 1))

/-- Progress values written from attempt `k` on, with `fuel` attempts
remaining. -/
def progressTraceFrom (outcomes : ℕ → ChannelAttemptOutcome) :
    ℕ → ℕ → List ℕ
  | 0, _ => []
  | fuel + 1, k =>
    attemptProgressUpdates (outcomes k) ++
      (if attemptSucceeds (outcomes k) then []
       else progressTraceFrom outcomes fuel (k + 1))

/-- The full sequence of `status` values of a channel fetch job: the
`pending` insert, then every status update the (up to 3) attempts
write. -/
def jobStatusTrace (outcomes : ℕ → ChannelAttemptOutcome) : List JobStatus :=
  .pending :: statusTraceFrom outcomes 3 0

/-- The full sequence of `progress` values: the column default 0, then
every progress update the attempts write. -/
def jobProgressTrace (outcomes : ℕ → ChannelAttemptOutcome) : List ℕ :=
  0 :: progressTraceFrom outcomes 3 0

/-- Modelled from the spec: the permitted forward transitions
`pending → started → (completed | failed)`; terminal states permit no
further transition. -/
def allowedTransition : JobStatus → JobStatus → Bool
  | .pending, .started => true
  | .started, .completed => true
  | .started, .failed => true
  | _, _ => false

end JobQueue

namespace YouTubeDataStorage

/-! ## Channel analytics recomputation (`part_006` lines 452-488 and
`utils/analytics.js` lines 4-13) -/

/-- The per-video columns the aggregate scan reads. -/
structure VideoRow where
  is_short : Bool
  view_count : ℕ
  deriving DecidableEq, Repr

/-- The `channel_analytics` row produced by the recomputation. -/
structure ChannelAnalyticsRow where
  total_videos : ℕ
  total_shorts : ℕ
  shorts_percentage : ℚ
  total_views : ℕ
  average_view_count : ℚ
  deriving DecidableEq, Repr

/-- Embeds the JavaScript `parseFloat(x.toFixed(2))`: rounding to two
decimal places (arithmetic modelled exactly over `Rat`; `toFixed` rounds
to the nearest hundredth, ties away from zero for the nonnegative values
that occur here, which is `round`). -/
def jsToFixed2 (q : ℚ) : ℚ :=
  (round (q * 100) : ℚ) / 100

/-- Embeds `YouTubeDataStorage.calculateAndStoreChannelAnalytics`
(`part_006` lines 453-488) applied to the full video set of a channel:
the SQL scan computes `COUNT(*)`, the `is_short` count, `SUM(view_count)`
and `AVG(view_count)`; the JavaScript then computes
`(total_shorts / total_videos * 100).toFixed(2)` when `total_videos > 0`
and `0` otherwise, and upserts the row (`updateChannelAnalytics`).
`AVG` of an empty set is `NULL` and `parseFloat(null) || 0` gives 0. -/
def calculateAndStoreChannelAnalytics (videos : List VideoRow) :
    ChannelAnalyticsRow :=
  let totalVideos := videos.length
  let totalShorts := (videos.filter (fun v => v.is_short)).length
  let totalViews := (videos.map (fun v => v.view_count)).sum
  { total_videos := totalVideos,
    total_shorts := totalShorts,
    shorts_percentage :=
      if 0 < totalVideos then
        jsToFixed2 ((totalShorts : ℚ) / (totalVideos : ℚ) * 100)
      else 0,
    total_views := totalViews,
    average_view_count :=
      if 0 < totalVideos then (totalViews : ℚ) / (totalVideos : ℚ) else 0 }

/-- Embeds `calculateShortsPercentage(videos)`
(`utils/analytics.js` lines 4-13). -/
def calculateShortsPercentage (videos : List VideoRow) : ℚ :=
  if videos.length = 0 then 0
  else
    jsToFixed2
      (((videos.filter (fun v => v.is_short)).length : ℚ) /
        (videos.length : ℚ) * 100)

/-- Modelled from the spec: the invariant value
`round(totalShorts / totalVideos * 100, 2)` when `totalVideos > 0`,
else `0` (section 3, ChannelAnalytics). -/
def specShortsPercentage (totalShorts totalVideos : ℕ) : ℚ :=
  if 0 < totalVideos then
    (round ((totalShorts : ℚ) / (totalVideos : ℚ) * 100 * 100) : ℚ) / 100
  else 0

/-- The example channel of the spec: 10 videos of which 3 are Shorts. -/
def exampleTenVideos : List VideoRow :=
  List.replicate 3 { is_short := true, view_count := 0 } ++
    List.replicate 7 { is_short := false, view_count := 0 }

end YouTubeDataStorage

/-! ## Supporting lemmas on the string helpers -/

theorem startsWith_append_left (a : List Char) :
    ∀ (b l : List Char), startsWith (a ++ b) l = true → startsWith a l = true := by
  induction a with
  | nil => intro b l _; rfl
  | cons c cs ih =>
    intro b l h
    cases l with
    | nil => simp [startsWith] at h
    | cons d ds =>
      simp only [List.cons_append, startsWith, Bool.and_eq_true] at h ⊢
      exact ⟨h.1, ih b ds h.2⟩

theorem containsSeq_append_left (l : List Char) :
    ∀ (a b : List Char), containsSeq (a ++ b) l = true → containsSeq a l = true := by
  induction l with
  | nil =>
    intro a b h
    cases a with
    | nil => rfl
    | cons c cs => simp [containsSeq] at h
  | cons c t ih =>
    intro a b h
    simp only [containsSeq, Bool.or_eq_true] at h ⊢
    rcases h with h | h
    · exact Or.inl (startsWith_append_left a b (c :: t) h)
    · exact Or.inr (ih a b h)

theorem jsLowerIncludes_shorts_short (s : String) :
    jsLowerIncludes s "shorts" = true → jsLowerIncludes s "short" = true := by
  intro h
  have hsplit : ("shorts".toList : List Char) = "short".toList ++ ['s'] := rfl
  unfold jsLowerIncludes at h ⊢
  rw [hsplit] at h
  exact containsSeq_append_left _ _ _ h

theorem any_shortTag_iff (tags : List String) :
    (tags.any fun tag =>
        jsLowerIncludes tag "short" || jsLowerIncludes tag "shorts") = true ↔
      ∃ tag ∈ tags, jsLowerIncludes tag "short" = true := by
  simp only [List.any_eq_true, Bool.or_eq_true]
  constructor
  · rintro ⟨t, ht, h | h⟩
    · exact ⟨t, ht, h⟩
    · exact ⟨t, ht, jsLowerIncludes_shorts_short t h⟩
  · rintro ⟨t, ht, h⟩
    exact ⟨t, ht, Or.inl h⟩

/-! ## C3: the Shorts classifier -/

/-- C3, counterexample: at duration 61 with no tags and category "10"
the claimed characterisation (duration at most 60, or a short tag, or
category "23") predicts `false`, but `isShort` returns `true` — the
source function falls through to its final `return duration <= 61`. -/
theorem isShort_61_counterexample :
    YouTubeAPIClient.isShort "10" 61 [] = true ∧
    ¬ (61 ≤ 60 ∨
        (∃ tag ∈ ([] : List String), jsLowerIncludes tag "short" = true) ∨
        ("10" : String) = "23") := by
  decide

/-- C3, amended: `isShort(categoryId, duration, tags)` returns true if
and only if duration ≤ 61 (not 60: the final fallback of the source is
`duration <= 61`), or some tag case-insensitively contains the substring
"short", or the category code equals "23"; in particular it still
returns false for duration 120, no tags, category "10". -/
theorem isShort_spec (categoryId : String) (duration : ℕ) (tags : List String) :
    YouTubeAPIClient.isShort categoryId duration tags = true ↔
      (duration ≤ 61 ∨
        (∃ tag ∈ tags, jsLowerIncludes tag "short" = true) ∨
        categoryId = "23") := by
  unfold YouTubeAPIClient.isShort
  by_cases h60 : duration ≤ 60
  · simp only [if_pos h60, true_iff]
    exact Or.inl (by omega)
  · rw [if_neg h60]
    by_cases htag : (tags.any fun tag =>
        jsLowerIncludes tag "short" || jsLowerIncludes tag "shorts") = true
    · rw [if_pos htag, any_shortTag_iff] at *
      simp only [true_iff]
      exact Or.inr (Or.inl htag)
    · rw [if_neg htag]
      by_cases hcat : categoryId == "23"
      · rw [if_pos hcat]
        simp only [true_iff]
        exact Or.inr (Or.inr (by simpa using hcat))
      · rw [if_neg hcat]
        rw [any_shortTag_iff] at htag
        simp only [decide_eq_true_eq]
        constructor
        · intro h
          exact Or.inl h
        · rintro (h | h | h)
          · exact h
          · exact absurd h htag
          · exact absurd (by simpa using h) hcat

/-! ## C8: the duration decoder -/

theorem findPT_eq_none (l : List Char)
    (h : containsSeq ['P', 'T'] l = false) :
    YouTubeAPIClient.findPT l = none := by
  induction l with
  | nil => rfl
  | cons c t ih =>
    simp only [containsSeq, Bool.or_eq_false_iff] at h
    unfold YouTubeAPIClient.findPT
    rw [if_neg (by simp [h.1]), ih h.2]

/-- C8, counterexample: the compact token `PT1H2M10S` denotes 1 hour,
2 minutes and 10 seconds, which the decoder sums to
`1 * 3600 + 2 * 60 + 10 = 3730`, not the claimed 3722. -/
theorem parseDuration_PT1H2M10S_counterexample :
    YouTubeAPIClient.parseDuration "PT1H2M10S" = 3730 ∧ (3730 : ℕ) ≠ 3722 := by
  decide

/-- C8, amended: `parseDuration` is total (a plain function on strings,
so it never throws): missing components default to zero, an input with
no `PT` token yields zero, and the examples decode as
`PT1H2M10S` to 3730 (not 3722), `PT45S` to 45, `PT` to 0,
`garbage` to 0, `PT1H` to 3600, `PT2M` to 120. -/
theorem parseDuration_spec :
    (∀ s : String, jsIncludes s "PT" = false →
      YouTubeAPIClient.parseDuration s = 0) ∧
    YouTubeAPIClient.parseDuration "PT1H2M10S" = 3730 ∧
    YouTubeAPIClient.parseDuration "PT45S" = 45 ∧
    YouTubeAPIClient.parseDuration "PT" = 0 ∧
    YouTubeAPIClient.parseDuration "garbage" = 0 ∧
    YouTubeAPIClient.parseDuration "PT1H" = 3600 ∧
    YouTubeAPIClient.parseDuration "PT2M" = 120 := by
  refine ⟨?_, by decide, by decide, by decide, by decide, by decide, by decide⟩
  intro s h
  have h2 : containsSeq ['P', 'T'] s.toList = false := h
  unfold YouTubeAPIClient.parseDuration
  rw [findPT_eq_none s.toList h2]

/-- C8, witness: the general malformed-input clause of
`parseDuration_spec` applied at the concrete input `xyz`. -/
theorem parseDuration_spec_witness :
    jsIncludes "xyz" "PT" = false ∧ YouTubeAPIClient.parseDuration "xyz" = 0 :=
  ⟨by decide, parseDuration_spec.1 "xyz" (by decide)⟩

/-! ## C9: the pagination walker -/

theorem fetchLoop_invariant (getPage : ℕ → YouTubeChannelService.Page)
    (maxPages : ℕ) :
    ∀ (fuel pagesFetched : ℕ) (acc : List ℕ),
      fuel = maxPages - pagesFetched → pagesFetched < maxPages →
      pagesFetched <
          (YouTubeChannelService.fetchLoop getPage maxPages acc pagesFetched).2 ∧
      (YouTubeChannelService.fetchLoop getPage maxPages acc pagesFetched).2
          ≤ maxPages ∧
      (YouTubeChannelService.fetchLoop getPage maxPages acc pagesFetched).1
          = acc ++ YouTubeChannelService.pagesVideos getPage pagesFetched
              ((YouTubeChannelService.fetchLoop getPage maxPages acc pagesFetched).2
                - pagesFetched) ∧
      (∀ i, pagesFetched ≤ i →
        i + 1 < (YouTubeChannelService.fetchLoop getPage maxPages acc pagesFetched).2 →
        (getPage i).nextPageToken.isSome = true) ∧
      ((YouTubeChannelService.fetchLoop getPage maxPages acc pagesFetched).2
          = maxPages ∨
        (getPage
          ((YouTubeChannelService.fetchLoop getPage maxPages acc pagesFetched).2
            - 1)).nextPageToken.isSome = false) := by
  intro fuel
  induction fuel with
  | zero =>
    intro pagesFetched acc hfuel hlt
    omega
  | succ n ih =>
    intro pagesFetched acc hfuel hlt
    by_cases hc : (getPage pagesFetched).nextPageToken.isSome = true ∧
        pagesFetched + 1 < maxPages
    · rw [YouTubeChannelService.fetchLoop, dif_pos hc]
      have ihh := ih (pagesFetched + 1) (acc ++ (getPage pagesFetched).videos)
        (by omega) hc.2
      obtain ⟨h1, h2, h3, h4, h5⟩ := ihh
      refine ⟨by omega, h2, ?_, ?_, h5⟩
      · rw [h3, List.append_assoc]
        congr 1
        have hcount :
            (YouTubeChannelService.fetchLoop getPage maxPages
                (acc ++ (getPage pagesFetched).videos) (pagesFetched + 1)).2
              - pagesFetched
            = ((YouTubeChannelService.fetchLoop getPage maxPages
                (acc ++ (getPage pagesFetched).videos) (pagesFetched + 1)).2
              - (pagesFetched + 1)) + 1 := by omega
        rw [hcount]
        rfl
      · intro i hi hlt2
        rcases Nat.eq_or_lt_of_le hi with heq | hgt
        · rw [← heq]
          exact hc.1
        · exact h4 i hgt hlt2
    · rw [YouTubeChannelService.fetchLoop, dif_neg hc]
      refine ⟨by omega, by omega, ?_, ?_, ?_⟩
      · simp [YouTubeChannelService.pagesVideos]
      · intro i hi hlt2
        omega
      · simp only [Nat.add_sub_cancel]
        rcases Decidable.not_and_iff_or_not.mp hc with h | h
        · exact Or.inr (by simpa using h)
        · exact Or.inl (by omega)

/-- C9: for every page oracle and every `maxPages ≥ 1`, the walker
fetches between 1 and `maxPages` pages, returns exactly the
concatenation, in page order, of the videos of the pages it fetched,
fetches a further page only when the previous page carried a
continuation token, and stops either because `maxPages` was reached or
because the last fetched page had no continuation token. -/
theorem fetchChannelVideosPaginated_spec
    (getPage : ℕ → YouTubeChannelService.Page) (maxPages : ℕ)
    (h : 1 ≤ maxPages) :
    1 ≤ (YouTubeChannelService.fetchChannelVideosPaginated getPage maxPages).2 ∧
    (YouTubeChannelService.fetchChannelVideosPaginated getPage maxPages).2
        ≤ maxPages ∧
    (YouTubeChannelService.fetchChannelVideosPaginated getPage maxPages).1
        = YouTubeChannelService.pagesVideos getPage 0
            (YouTubeChannelService.fetchChannelVideosPaginated getPage maxPages).2 ∧
    (∀ i, i + 1 <
        (YouTubeChannelService.fetchChannelVideosPaginated getPage maxPages).2 →
      (getPage i).nextPageToken.isSome = true) ∧
    ((YouTubeChannelService.fetchChannelVideosPaginated getPage maxPages).2
        = maxPages ∨
      (getPage
        ((YouTubeChannelService.fetchChannelVideosPaginated getPage maxPages).2
          - 1)).nextPageToken.isSome = false) := by
  have hinv := fetchLoop_invariant getPage maxPages (maxPages - 0) 0 [] rfl
    (by omega)
  obtain ⟨h1, h2, h3, h4, h5⟩ := hinv
  exact ⟨h1, h2, by simpa using h3, fun i hi => h4 i (Nat.zero_le i) hi, h5⟩

/-- A channel with 5 available pages: page `i` (for `i < 4`) carries a
continuation token; each page lists one video. -/
def fivePageOracle : ℕ → YouTubeChannelService.Page :=
  fun i => { videos := [i], nextPageToken := if i < 4 then some "tok" else none }

/-- C9, witness: `fetchChannelVideosPaginated_spec` applied with
`maxPages = 2` to the five-page channel; concretely the walker fetches
exactly 2 pages and returns the videos of pages 0 and 1. -/
theorem fetchChannelVideosPaginated_spec_witness :
    (YouTubeChannelService.fetchChannelVideosPaginated fivePageOracle 2).2 ≤ 2 ∧
    (YouTubeChannelService.fetchChannelVideosPaginated fivePageOracle 2).1
      = YouTubeChannelService.pagesVideos fivePageOracle 0
          (YouTubeChannelService.fetchChannelVideosPaginated fivePageOracle 2).2 ∧
    (YouTubeChannelService.fetchChannelVideosPaginated fivePageOracle 2)
      = ([0, 1], 2) :=
  ⟨(fetchChannelVideosPaginated_spec fivePageOracle 2 (by decide)).2.1,
   (fetchChannelVideosPaginated_spec fivePageOracle 2 (by decide)).2.2.1,
   by simp [YouTubeChannelService.fetchChannelVideosPaginated,
        YouTubeChannelService.fetchLoop, fivePageOracle]⟩

/-! ## C10: the video service cannot walk pages -/

/-- C10: for every page oracle, channel id and maxPages,
`YouTubeVideoService.fetchAndStoreChannelVideos` — the operation video
fetch jobs execute — fails with a `TypeError` before storing any video,
because it calls `this.client.fetchChannelVideosPaginated` while the
`YouTubeAPIClient` class defines no method of that name; the method
exists only on `YouTubeChannelService`, the class channel fetch jobs
use. -/
theorem fetchAndStoreChannelVideos_always_fails
    (getPage : ℕ → YouTubeChannelService.Page) (channelId : String)
    (maxPages : ℕ) :
    (YouTubeVideoService.fetchAndStoreChannelVideos getPage channelId
        maxPages).result
      = .error
          "TypeError: this.client.fetchChannelVideosPaginated is not a function" ∧
    (YouTubeVideoService.fetchAndStoreChannelVideos getPage channelId
        maxPages).storedVideos = [] ∧
    "fetchChannelVideosPaginated" ∉
        YouTubeVideoService.youTubeAPIClientMethods ∧
    "fetchChannelVideosPaginated" ∈
        YouTubeVideoService.youTubeChannelServiceMethods := by
  refine ⟨?_, ?_, by decide, by decide⟩
  · rw [YouTubeVideoService.fetchAndStoreChannelVideos, if_neg (by decide)]
  · rw [YouTubeVideoService.fetchAndStoreChannelVideos, if_neg (by decide)]

/-! ## C4: the retry policy does not look at the error -/

/-- C4, counterexample: a job whose execution fails with `NotFound` on
every attempt is nevertheless retried — the queue decides to retry it
after the first attempt and runs 3 attempts in total, while the claim
says such a job is never retried and fails on the first attempt. -/
theorem notFound_job_retried_counterexample :
    JobQueue.bullShouldRetry (JobQueue.channelFetchJobOptions 1) 1
        ErrorTaxonomy.notFound = true ∧
    (JobQueue.runJob (JobQueue.channelFetchJobOptions 1)
        (fun _ => .error ErrorTaxonomy.notFound)).1 = 3 := by
  constructor
  · decide
  · simp [JobQueue.runJob, JobQueue.runJobFrom, JobQueue.bullShouldRetry,
      JobQueue.channelFetchJobOptions]

/-- C4, amended: both job kinds are enqueued with `attempts: 3` and
exponential backoff starting at 2000 ms unconditionally, and the retry
decision never consults the error: a job failing persistently with ANY
taxonomy error — `NotFound` and `Upstream4xx` included — is executed
exactly 3 times (backoff delays 2000 ms then 4000 ms) before it is
marked failed. -/
theorem jobRetryPolicy_spec (e : ErrorTaxonomy) (p : ℕ) :
    (JobQueue.runJob (JobQueue.channelFetchJobOptions p)
        (fun _ => .error e)).1 = 3 ∧
    (JobQueue.runJob (JobQueue.channelFetchJobOptions p)
        (fun _ => .error e)).2 = .error e ∧
    JobQueue.videoFetchJobOptions p = JobQueue.channelFetchJobOptions p ∧
    (JobQueue.channelFetchJobOptions p).attempts = 3 ∧
    JobQueue.bullBackoffDelay (JobQueue.channelFetchJobOptions p) 1 = 2000 ∧
    JobQueue.bullBackoffDelay (JobQueue.channelFetchJobOptions p) 2 = 4000 ∧
    (∀ (k : ℕ) (e1 e2 : ErrorTaxonomy),
      JobQueue.bullShouldRetry (JobQueue.channelFetchJobOptions p) k e1
        = JobQueue.bullShouldRetry (JobQueue.channelFetchJobOptions p) k e2) := by
  refine ⟨?_, ?_, rfl, rfl, rfl, rfl, fun k e1 e2 => rfl⟩
  · simp [JobQueue.runJob, JobQueue.runJobFrom, JobQueue.bullShouldRetry,
      JobQueue.channelFetchJobOptions]
  · simp [JobQueue.runJob, JobQueue.runJobFrom, JobQueue.bullShouldRetry,
      JobQueue.channelFetchJobOptions]

/-! ## C6: job status transitions and progress -/

theorem progressTraceFrom_head (outcomes : ℕ → JobQueue.ChannelAttemptOutcome) :
    ∀ (fuel k : ℕ),
      JobQueue.progressTraceFrom outcomes fuel k = [] ∨
      ∃ t, JobQueue.progressTraceFrom outcomes fuel k = 50 :: t := by
  intro fuel
  induction fuel with
  | zero => intro k; exact Or.inl rfl
  | succ n ih =>
    intro k
    cases ho : outcomes k with
    | failAtChannel msg =>
      simpa [JobQueue.progressTraceFrom, JobQueue.attemptProgressUpdates,
        JobQueue.attemptSucceeds, ho] using ih (k + 1)
    | failAtVideos msg =>
      exact Or.inr ⟨JobQueue.progressTraceFrom outcomes n (k + 1),
        by simp [JobQueue.progressTraceFrom, JobQueue.attemptProgressUpdates,
          JobQueue.attemptSucceeds, ho]⟩
    | success =>
      exact Or.inr ⟨[100],
        by simp [JobQueue.progressTraceFrom, JobQueue.attemptProgressUpdates,
          JobQueue.attemptSucceeds, ho]⟩

theorem progressTraceFrom_chain (outcomes : ℕ → JobQueue.ChannelAttemptOutcome) :
    ∀ (fuel k : ℕ),
      List.Chain' (· ≤ ·) (JobQueue.progressTraceFrom outcomes fuel k) := by
  intro fuel
  induction fuel with
  | zero => intro k; simp [JobQueue.progressTraceFrom]
  | succ n ih =>
    intro k
    cases ho : outcomes k with
    | failAtChannel msg =>
      simpa [JobQueue.progressTraceFrom, JobQueue.attemptProgressUpdates,
        JobQueue.attemptSucceeds, ho] using ih (k + 1)
    | failAtVideos msg =>
      have hhead := progressTraceFrom_head outcomes n (k + 1)
      have hchain := ih (k + 1)
      simp only [JobQueue.progressTraceFrom, JobQueue.attemptProgressUpdates,
        JobQueue.attemptSucceeds, ho, if_neg, List.singleton_append,
        Bool.false_eq_true, ite_false]
      rw [List.chain'_cons']
      refine ⟨?_, hchain⟩
      intro y hy
      rcases hhead with he | ⟨t, ht⟩
      · rw [he] at hy
        simp at hy
      · rw [ht] at hy
        simp at hy
        omega
    | success =>
      simp [JobQueue.progressTraceFrom, JobQueue.attemptProgressUpdates,
        JobQueue.attemptSucceeds, ho]

/-- A job whose first execution attempt fails after the channel step and
whose retry succeeds. -/
def failThenSuccessOutcomes : ℕ → JobQueue.ChannelAttemptOutcome :=
  fun k => if k = 0 then .failAtVideos "upstream 500" else .success

/-- C6, counterexample: a job that fails once and is then retried by the
queue writes the status sequence pending, started, failed, started,
completed — a `failed → started` transition out of a terminal state,
violating the claimed strictly-forward lifecycle. -/
theorem jobStatus_backward_counterexample :
    JobQueue.jobStatusTrace failThenSuccessOutcomes
      = [.pending, .started, .failed, .started, .completed] ∧
    ¬ List.Chain'
        (fun a b => JobQueue.allowedTransition a b = true)
        (JobQueue.jobStatusTrace failThenSuccessOutcomes) := by
  have htr : JobQueue.jobStatusTrace failThenSuccessOutcomes
      = [.pending, .started, .failed, .started, .completed] := by decide
  refine ⟨htr, ?_⟩
  rw [htr]
  intro h
  rw [List.chain'_cons, List.chain'_cons, List.chain'_cons] at h
  exact absurd h.2.2.1 (by decide)

/-- C6, amended: within one execution attempt the status updates do
follow `pending → started → (completed | failed)` and the progress value
is non-decreasing over the whole job lifetime including across retried
executions; but across retries the lifecycle is not forward — a retried
job moves `failed → started` — and `updateJobStatus` applies any
requested status unconditionally, with no terminal-state guard. -/
theorem jobLifecycle_spec :
    (∀ o : JobQueue.ChannelAttemptOutcome,
      List.Chain' (fun a b => JobQueue.allowedTransition a b = true)
        (JobQueue.JobStatus.pending :: JobQueue.attemptStatusUpdates o)) ∧
    (∀ outcomes : ℕ → JobQueue.ChannelAttemptOutcome,
      List.Chain' (· ≤ ·) (JobQueue.jobProgressTrace outcomes)) ∧
    (∀ (row : JobQueue.JobRow) (st : JobQueue.JobStatus)
        (e : Option String),
      (JobQueue.updateJobStatus row st e).status = st) := by
  refine ⟨?_, ?_, ?_⟩
  · intro o
    cases o with
    | failAtChannel msg =>
      simp [JobQueue.attemptStatusUpdates, List.chain'_cons,
        JobQueue.allowedTransition]
    | failAtVideos msg =>
      simp [JobQueue.attemptStatusUpdates, List.chain'_cons,
        JobQueue.allowedTransition]
    | success =>
      simp [JobQueue.attemptStatusUpdates, List.chain'_cons,
        JobQueue.allowedTransition]
  · intro outcomes
    rw [JobQueue.jobProgressTrace, List.chain'_cons']
    refine ⟨?_, progressTraceFrom_chain outcomes 3 0⟩
    intro y hy
    rcases progressTraceFrom_head outcomes 3 0 with he | ⟨t, ht⟩
    · rw [he] at hy
      simp at hy
    · rw [ht] at hy
      simp at hy
      omega
  · intro row st e
    rw [JobQueue.updateJobStatus]
    by_cases hst : st = .failed
    · rw [if_pos hst]
    · rw [if_neg hst]

/-! ## C7: the Shorts percentage invariant -/

/-- C7: every recomputation of the channel analytics stores
`shortsPercentage = round(totalShorts / totalVideos * 100, 2)` when the
channel has videos and `0` when it has none (no division occurs in the
zero case: the guard short-circuits), the stored value agrees with the
`calculateShortsPercentage` utility, and the spec example — 10 videos of
which 3 are Shorts — yields exactly 30 (= 30.00). -/
theorem calculateAndStoreChannelAnalytics_spec
    (videos : List YouTubeDataStorage.VideoRow) :
    (YouTubeDataStorage.calculateAndStoreChannelAnalytics videos).shorts_percentage
        = YouTubeDataStorage.specShortsPercentage
            (videos.filter (fun v => v.is_short)).length videos.length ∧
    (videos.length = 0 →
      (YouTubeDataStorage.calculateAndStoreChannelAnalytics
          videos).shorts_percentage = 0) ∧
    (YouTubeDataStorage.calculateAndStoreChannelAnalytics videos).shorts_percentage
        = YouTubeDataStorage.calculateShortsPercentage videos ∧
    (YouTubeDataStorage.calculateAndStoreChannelAnalytics
        YouTubeDataStorage.exampleTenVideos).shorts_percentage = 30 := by
  refine ⟨rfl, ?_, ?_, ?_⟩
  · intro h0
    simp [YouTubeDataStorage.calculateAndStoreChannelAnalytics, h0]
  · by_cases h0 : videos.length = 0
    · simp [YouTubeDataStorage.calculateAndStoreChannelAnalytics,
        YouTubeDataStorage.calculateShortsPercentage, h0]
    · simp [YouTubeDataStorage.calculateAndStoreChannelAnalytics,
        YouTubeDataStorage.calculateShortsPercentage, h0, Nat.pos_of_ne_zero h0]
  · norm_num [YouTubeDataStorage.calculateAndStoreChannelAnalytics,
      YouTubeDataStorage.jsToFixed2, YouTubeDataStorage.exampleTenVideos]

/-- C7, witness: the zero-video clause of
`calculateAndStoreChannelAnalytics_spec` applied at the empty video
set. -/
theorem calculateAndStoreChannelAnalytics_spec_witness :
    (YouTubeDataStorage.calculateAndStoreChannelAnalytics
        ([] : List YouTubeDataStorage.VideoRow)).shorts_percentage = 0 :=
  (calculateAndStoreChannelAnalytics_spec []).2.1 rfl

/-! ## C1 and C2: quota consumption versus the cache -/

theorem consume_ok (rl : YouTubeAPIClient.RateLimiterMemory) (cost : ℕ)
    (h : rl.consumed + cost ≤ rl.points) :
    rl.consume cost = some { rl with consumed := rl.consumed + cost } := by
  rw [YouTubeAPIClient.RateLimiterMemory.consume, if_pos h]

theorem consume_fail (rl : YouTubeAPIClient.RateLimiterMemory) (cost : ℕ)
    (h : rl.points < rl.consumed + cost) :
    rl.consume cost = none := by
  rw [YouTubeAPIClient.RateLimiterMemory.consume, if_neg (by omega)]

/-- A fresh client state whose cache holds an unexpired entry for the
key `/videos_p`. -/
def cachedFreshState : YouTubeAPIClient.ClientState :=
  { YouTubeAPIClient.initialState with cache := [("/videos_p", 42, 300)] }

/-- C1, counterexample: with full quota and an unexpired cache entry for
the requested key, `makeRequest` does return the cached value with no
network call, but the daily counter is decremented by the cost and the
per-minute counter by 1 — the rate-limit block runs before the cache
lookup, so the claimed unchanged quota counters are changed. -/
theorem cacheHit_consumes_quota_counterexample :
    (YouTubeAPIClient.makeRequest (.success 7) "/videos" "p" 5
        cachedFreshState).result = .ok 42 ∧
    (YouTubeAPIClient.makeRequest (.success 7) "/videos" "p" 5
        cachedFreshState).networkCalls = 0 ∧
    cachedFreshState.daily.consumed = 0 ∧
    cachedFreshState.minute.consumed = 0 ∧
    (YouTubeAPIClient.makeRequest (.success 7) "/videos" "p" 5
        cachedFreshState).state.daily.consumed = 5 ∧
    (YouTubeAPIClient.makeRequest (.success 7) "/videos" "p" 5
        cachedFreshState).state.minute.consumed = 1 := by
  decide

/-- C1, amended: when the quota consumption succeeds and the
(endpoint, params) key has an unexpired cache entry, the call returns
the cached value without issuing a network call and leaves the cache
unchanged — so two identical requests within the TTL window produce
exactly one network call — but the call does consume quota: the daily
counter is decremented by `cost` and the per-minute counter by 1,
because the rate-limit block precedes the cache check. -/
theorem makeRequest_cacheHit_spec :
    (∀ (net : YouTubeAPIClient.UpstreamResult) (endpoint paramsJson : String)
        (cost v : ℕ) (s : YouTubeAPIClient.ClientState),
      YouTubeAPIClient.cacheGet s.cache (endpoint ++ "_" ++ paramsJson)
          = some v →
      s.daily.consumed + cost ≤ s.daily.points →
      s.minute.consumed + 1 ≤ s.minute.points →
      (YouTubeAPIClient.makeRequest net endpoint paramsJson cost s).result
          = .ok v ∧
      (YouTubeAPIClient.makeRequest net endpoint paramsJson cost s).networkCalls
          = 0 ∧
      (YouTubeAPIClient.makeRequest net endpoint paramsJson cost s).state.cache
          = s.cache ∧
      (YouTubeAPIClient.makeRequest net endpoint paramsJson cost
          s).state.daily.consumed = s.daily.consumed + cost ∧
      (YouTubeAPIClient.makeRequest net endpoint paramsJson cost
          s).state.minute.consumed = s.minute.consumed + 1) ∧
    (∀ (data : ℕ) (endpoint paramsJson : String) (cost : ℕ)
        (s : YouTubeAPIClient.ClientState),
      YouTubeAPIClient.cacheGet s.cache (endpoint ++ "_" ++ paramsJson)
          = none →
      s.daily.consumed + cost + cost ≤ s.daily.points →
      s.minute.consumed + 1 + 1 ≤ s.minute.points →
      (YouTubeAPIClient.makeRequest (.success data) endpoint paramsJson cost
          s).networkCalls = 1 ∧
      (YouTubeAPIClient.makeRequest (.success data) endpoint paramsJson cost
          s).result = .ok data ∧
      (YouTubeAPIClient.makeRequest (.success data) endpoint paramsJson cost
        (YouTubeAPIClient.makeRequest (.success data) endpoint paramsJson cost
          s).state).networkCalls = 0 ∧
      (YouTubeAPIClient.makeRequest (.success data) endpoint paramsJson cost
        (YouTubeAPIClient.makeRequest (.success data) endpoint paramsJson cost
          s).state).result = .ok data) := by
  constructor
  · intro net endpoint paramsJson cost v s hcache hd hm
    simp [YouTubeAPIClient.makeRequest, YouTubeAPIClient.quotaPhase,
      consume_ok s.daily cost hd, consume_ok s.minute 1 hm, hcache]
  · intro data endpoint paramsJson cost s hcache hd hm
    have h1 :
        YouTubeAPIClient.makeRequest (.success data) endpoint paramsJson cost s
          = { result := .ok data,
              state :=
                { daily := { s.daily with consumed := s.daily.consumed + cost },
                  minute := { s.minute with consumed := s.minute.consumed + 1 },
                  cache := (endpoint ++ "_" ++ paramsJson, data,
                    YouTubeAPIClient.cacheTTL endpoint) :: s.cache,
                  totalRequests := s.totalRequests + 1,
                  requestsToday := s.requestsToday + 1 },
              networkCalls := 1 } := by
      simp [YouTubeAPIClient.makeRequest, YouTubeAPIClient.quotaPhase,
        consume_ok s.daily cost (by omega), consume_ok s.minute 1 (by omega),
        hcache]
    rw [h1]
    have hd2 := consume_ok
      { points := s.daily.points, consumed := s.daily.consumed + cost } cost hd
    have hm2 := consume_ok
      { points := s.minute.points, consumed := s.minute.consumed + 1 } 1 hm
    refine ⟨rfl, rfl, ?_, ?_⟩
    · simp [YouTubeAPIClient.makeRequest, YouTubeAPIClient.quotaPhase,
        hd2, hm2, YouTubeAPIClient.cacheGet]
    · simp [YouTubeAPIClient.makeRequest, YouTubeAPIClient.quotaPhase,
        hd2, hm2, YouTubeAPIClient.cacheGet]

/-- C1, witness: both clauses of `makeRequest_cacheHit_spec` at concrete
inputs — a cache hit on `cachedFreshState`, and two identical requests
from the fresh empty-cache state. -/
theorem makeRequest_cacheHit_spec_witness :
    ((YouTubeAPIClient.makeRequest (.success 7) "/videos" "p" 5
        cachedFreshState).result = .ok 42 ∧
      (YouTubeAPIClient.makeRequest (.success 7) "/videos" "p" 5
        cachedFreshState).networkCalls = 0 ∧
      (YouTubeAPIClient.makeRequest (.success 7) "/videos" "p" 5
        cachedFreshState).state.cache = cachedFreshState.cache ∧
      (YouTubeAPIClient.makeRequest (.success 7) "/videos" "p" 5
        cachedFreshState).state.daily.consumed
          = cachedFreshState.daily.consumed + 5 ∧
      (YouTubeAPIClient.makeRequest (.success 7) "/videos" "p" 5
        cachedFreshState).state.minute.consumed
          = cachedFreshState.minute.consumed + 1) ∧
    ((YouTubeAPIClient.makeRequest (.success 9) "/videos" "p" 5
        YouTubeAPIClient.initialState).networkCalls = 1 ∧
      (YouTubeAPIClient.makeRequest (.success 9) "/videos" "p" 5
        YouTubeAPIClient.initialState).result = .ok 9 ∧
      (YouTubeAPIClient.makeRequest (.success 9) "/videos" "p" 5
        (YouTubeAPIClient.makeRequest (.success 9) "/videos" "p" 5
          YouTubeAPIClient.initialState).state).networkCalls = 0 ∧
      (YouTubeAPIClient.makeRequest (.success 9) "/videos" "p" 5
        (YouTubeAPIClient.makeRequest (.success 9) "/videos" "p" 5
          YouTubeAPIClient.initialState).state).result = .ok 9) :=
  ⟨makeRequest_cacheHit_spec.1 (.success 7) "/videos" "p" 5 42
      cachedFreshState (by decide) (by decide) (by decide),
   makeRequest_cacheHit_spec.2 9 "/videos" "p" 5
      YouTubeAPIClient.initialState (by decide) (by decide) (by decide)⟩

/-- A fresh client state whose per-minute budget is fully consumed. -/
def minuteExhaustedState : YouTubeAPIClient.ClientState :=
  { YouTubeAPIClient.initialState with
      minute := { points := 100, consumed := 100 } }

/-- C2, counterexample: with the per-minute budget exhausted and the
daily budget untouched, a request of cost 5 fails with the rate-limit
error but decrements the daily counter by 10 (= 2 x cost: once on the
initial attempt and once on the delayed retry) — the failing attempt
does not consume nothing. -/
theorem quota_nonatomic_counterexample :
    (YouTubeAPIClient.makeRequest (.success 7) "/videos" "p" 5
        minuteExhaustedState).result
      = .error "Request error: Rate limit exceeded. Please try again later." ∧
    minuteExhaustedState.daily.consumed = 0 ∧
    (YouTubeAPIClient.makeRequest (.success 7) "/videos" "p" 5
        minuteExhaustedState).state.daily.consumed = 10 ∧
    (YouTubeAPIClient.makeRequest (.success 7) "/videos" "p" 5
        minuteExhaustedState).networkCalls = 0 := by
  decide

/-- C2, amended: a consumption attempt that fails because the daily
budget is insufficient (including a single call requesting more than the
remaining daily budget) fails with the rate-limit error and consumes
nothing — the state is unchanged; but a consumption attempt that fails
because only the per-minute budget is exhausted decrements the daily
counter by 2 x cost (initial attempt plus the single delayed retry)
while leaving the per-minute counter unchanged, so the two budgets are
not checked atomically. -/
theorem quotaPhase_spec :
    (∀ (net : YouTubeAPIClient.UpstreamResult) (endpoint paramsJson : String)
        (cost : ℕ) (s : YouTubeAPIClient.ClientState),
      s.daily.points < s.daily.consumed + cost →
      (YouTubeAPIClient.makeRequest net endpoint paramsJson cost s).result
          = .error "Request error: Rate limit exceeded. Please try again later." ∧
      (YouTubeAPIClient.makeRequest net endpoint paramsJson cost s).state = s ∧
      (YouTubeAPIClient.makeRequest net endpoint paramsJson cost s).networkCalls
          = 0) ∧
    (∀ (net : YouTubeAPIClient.UpstreamResult) (endpoint paramsJson : String)
        (cost : ℕ) (s : YouTubeAPIClient.ClientState),
      s.daily.consumed + cost + cost ≤ s.daily.points →
      s.minute.points < s.minute.consumed + 1 →
      (YouTubeAPIClient.makeRequest net endpoint paramsJson cost s).result
          = .error "Request error: Rate limit exceeded. Please try again later." ∧
      (YouTubeAPIClient.makeRequest net endpoint paramsJson cost
          s).state.daily.consumed = s.daily.consumed + cost + cost ∧
      (YouTubeAPIClient.makeRequest net endpoint paramsJson cost
          s).state.minute = s.minute ∧
      (YouTubeAPIClient.makeRequest net endpoint paramsJson cost s).networkCalls
          = 0) := by
  constructor
  · intro net endpoint paramsJson cost s hd
    simp [YouTubeAPIClient.makeRequest, YouTubeAPIClient.quotaPhase,
      YouTubeAPIClient.quotaRetry, consume_fail s.daily cost hd]
  · intro net endpoint paramsJson cost s hd hm
    have hd1 := consume_ok s.daily cost (by omega)
    have hd2 := consume_ok
      { points := s.daily.points, consumed := s.daily.consumed + cost } cost hd
    have hm1 := consume_fail s.minute 1 hm
    simp [YouTubeAPIClient.makeRequest, YouTubeAPIClient.quotaPhase,
      YouTubeAPIClient.quotaRetry, hd1, hd2, hm1]

/-- C2, witness: both clauses of `quotaPhase_spec` at concrete inputs —
a single call of cost 20000 against the fresh 10000-point daily budget,
and a call of cost 5 against `minuteExhaustedState`. -/
theorem quotaPhase_spec_witness :
    ((YouTubeAPIClient.makeRequest (.success 7) "/videos" "p" 20000
        YouTubeAPIClient.initialState).result
      = .error "Request error: Rate limit exceeded. Please try again later." ∧
     (YouTubeAPIClient.makeRequest (.success 7) "/videos" "p" 20000
        YouTubeAPIClient.initialState).state = YouTubeAPIClient.initialState ∧
     (YouTubeAPIClient.makeRequest (.success 7) "/videos" "p" 20000
        YouTubeAPIClient.initialState).networkCalls = 0) ∧
    ((YouTubeAPIClient.makeRequest (.success 7) "/videos" "p" 5
        minuteExhaustedState).result
      = .error "Request error: Rate limit exceeded. Please try again later." ∧
     (YouTubeAPIClient.makeRequest (.success 7) "/videos" "p" 5
        minuteExhaustedState).state.daily.consumed
          = minuteExhaustedState.daily.consumed + 5 + 5 ∧
     (YouTubeAPIClient.makeRequest (.success 7) "/videos" "p" 5
        minuteExhaustedState).state.minute = minuteExhaustedState.minute ∧
     (YouTubeAPIClient.makeRequest (.success 7) "/videos" "p" 5
        minuteExhaustedState).networkCalls = 0) :=
  ⟨quotaPhase_spec.1 (.success 7) "/videos" "p" 20000
      YouTubeAPIClient.initialState (by decide),
   quotaPhase_spec.2 (.success 7) "/videos" "p" 5
      minuteExhaustedState (by decide) (by decide)⟩

/-! ## C5: the error taxonomy at the client boundary -/

/-- C5, counterexample: a 403 whose upstream reason code is
`quotaExceeded` and a 403 whose reason code is `keyInvalid` produce
literally identical thrown errors (the reason code feeds only the
logging), while the claimed taxonomy maps them to different members —
so no classification of the thrown errors can realise the claimed
mapping. -/
theorem errorTaxonomy_counterexample :
    (YouTubeAPIClient.makeRequest
        (.httpError 403 "quotaExceeded" "Forbidden") "/videos" "p" 1
        YouTubeAPIClient.initialState).result
      = (YouTubeAPIClient.makeRequest
        (.httpError 403 "keyInvalid" "Forbidden") "/videos" "p" 1
        YouTubeAPIClient.initialState).result ∧
    YouTubeAPIClient.specClassify (.httpError 403 "quotaExceeded" "Forbidden")
      ≠ YouTubeAPIClient.specClassify (.httpError 403 "keyInvalid" "Forbidden") ∧
    ¬ ∃ f : String → ErrorTaxonomy,
        ∀ (o : YouTubeAPIClient.UpstreamResult) (msg : String),
          (YouTubeAPIClient.makeRequest o "/videos" "p" 1
              YouTubeAPIClient.initialState).result = .error msg →
          some (f msg) = YouTubeAPIClient.specClassify o := by
  refine ⟨by decide, by decide, ?_⟩
  rintro ⟨f, hf⟩
  have h1 := hf (.httpError 403 "quotaExceeded" "Forbidden")
    "YouTube API Error: 403 - Forbidden" (by decide)
  have h2 := hf (.httpError 403 "keyInvalid" "Forbidden")
    "YouTube API Error: 403 - Forbidden" (by decide)
  exact absurd (h1.symm.trans h2) (by decide)

/-- C5, amended: every failure of `makeRequest` crosses the boundary as
one generic wrapped `Error` string — `YouTube API Error: <status> -
<message>` for every non-2xx response regardless of status family,
`Network error: <message>` for a transport failure, and `Request error:
...` for the local rate-limit failure — so no raw transport exception
escapes; but the thrown error for a non-2xx response does not depend on
the upstream reason code, so the claimed 403 quota/invalid-key
distinction is not realised. -/
theorem makeRequest_errorShape_spec :
    (∀ (status : ℕ) (reason1 reason2 message endpoint paramsJson : String)
        (cost : ℕ) (s : YouTubeAPIClient.ClientState),
      YouTubeAPIClient.makeRequest (.httpError status reason1 message)
          endpoint paramsJson cost s
        = YouTubeAPIClient.makeRequest (.httpError status reason2 message)
          endpoint paramsJson cost s) ∧
    (∀ (status : ℕ) (reason message endpoint paramsJson : String)
        (cost : ℕ) (s : YouTubeAPIClient.ClientState),
      YouTubeAPIClient.cacheGet s.cache (endpoint ++ "_" ++ paramsJson) = none →
      s.daily.consumed + cost ≤ s.daily.points →
      s.minute.consumed + 1 ≤ s.minute.points →
      (YouTubeAPIClient.makeRequest (.httpError status reason message)
          endpoint paramsJson cost s).result
        = .error ("YouTube API Error: " ++ toString status ++ " - " ++ message)) ∧
    (∀ (message endpoint paramsJson : String) (cost : ℕ)
        (s : YouTubeAPIClient.ClientState),
      YouTubeAPIClient.cacheGet s.cache (endpoint ++ "_" ++ paramsJson) = none →
      s.daily.consumed + cost ≤ s.daily.points →
      s.minute.consumed + 1 ≤ s.minute.points →
      (YouTubeAPIClient.makeRequest (.transportError message)
          endpoint paramsJson cost s).result
        = .error ("Network error: " ++ message)) ∧
    (∀ (net : YouTubeAPIClient.UpstreamResult) (endpoint paramsJson : String)
        (cost : ℕ) (s : YouTubeAPIClient.ClientState),
      (∃ d, (YouTubeAPIClient.makeRequest net endpoint paramsJson cost s).result
          = .ok d) ∨
      (∃ t, (YouTubeAPIClient.makeRequest net endpoint paramsJson cost s).result
          = .error ("Request error: " ++ t)) ∨
      (∃ t, (YouTubeAPIClient.makeRequest net endpoint paramsJson cost s).result
          = .error ("YouTube API Error: " ++ t)) ∨
      (∃ t, (YouTubeAPIClient.makeRequest net endpoint paramsJson cost s).result
          = .error ("Network error: " ++ t))) := by
  refine ⟨?_, ?_, ?_, ?_⟩
  · intro status reason1 reason2 message endpoint paramsJson cost s
    rfl
  · intro status reason message endpoint paramsJson cost s hcache hd hm
    simp [YouTubeAPIClient.makeRequest, YouTubeAPIClient.quotaPhase,
      consume_ok s.daily cost hd, consume_ok s.minute 1 hm, hcache]
  · intro message endpoint paramsJson cost s hcache hd hm
    simp [YouTubeAPIClient.makeRequest, YouTubeAPIClient.quotaPhase,
      consume_ok s.daily cost hd, consume_ok s.minute 1 hm, hcache]
  · intro net endpoint paramsJson cost s
    unfold YouTubeAPIClient.makeRequest
    rcases hq : YouTubeAPIClient.quotaPhase s cost with ⟨passed, s1⟩
    cases passed
    · exact Or.inr (Or.inl
        ⟨"Rate limit exceeded. Please try again later.", rfl⟩)
    · rcases hcg : YouTubeAPIClient.cacheGet s1.cache
          (endpoint ++ "_" ++ paramsJson) with _ | v
      · simp only [hcg]
        cases net with
        | success data => exact Or.inl ⟨data, rfl⟩
        | httpError status reason message =>
          refine Or.inr (Or.inr (Or.inl
            ⟨toString status ++ " - " ++ message, ?_⟩))
          show Except.error
              ("YouTube API Error: " ++ toString status ++ " - " ++ message)
            = Except.error
              ("YouTube API Error: " ++ (toString status ++ " - " ++ message))
          simp only [String.append_assoc]
        | transportError message =>
          exact Or.inr (Or.inr (Or.inr ⟨message, rfl⟩))
      · simp only [hcg]
        exact Or.inl ⟨v, rfl⟩

/-- C5, witness: the hypothesis-bearing clauses of
`makeRequest_errorShape_spec` at concrete inputs — a 404 response and a
transport failure against the fresh state. -/
theorem makeRequest_errorShape_spec_witness :
    (YouTubeAPIClient.makeRequest (.httpError 404 "notFound" "Not Found")
        "/channels" "p" 1 YouTubeAPIClient.initialState).result
      = .error ("YouTube API Error: " ++ toString 404 ++ " - " ++ "Not Found") ∧
    (YouTubeAPIClient.makeRequest (.transportError "socket hang up")
        "/channels" "p" 1 YouTubeAPIClient.initialState).result
      = .error ("Network error: " ++ "socket hang up") :=
  ⟨makeRequest_errorShape_spec.2.1 404 "notFound" "Not Found" "/channels" "p" 1
      YouTubeAPIClient.initialState (by decide) (by decide) (by decide),
   makeRequest_errorShape_spec.2.2.1 "socket hang up" "/channels" "p" 1
      YouTubeAPIClient.initialState (by decide) (by decide) (by decide)⟩
